import Mathlib

/-
Verification development for the `pyapi-gitlab` client library
(`gitlab/__init__.py`).  The library is a thin synchronous HTTP client:
every public method builds one HTTP request (URL, query parameters, form
body, headers) and maps the response's status code and body to a Python
return value or a raised exception.

The embedding below is a direct, shallow translation of that code:

* Python strings are Lean `String`s; the few character-level operations the
  source performs (`host[-1]`, `host[:-1]`, `host[:7]`, `.lower()`) are
  modelled on the underlying character list so that they evaluate inside
  the kernel.
* Python dicts used for query/body payloads are association lists
  (`Dict`), with `Dict.set` / `Dict.update` mirroring `d[k] = v` and
  `d.update(kw)` (existing keys keep their position, new keys are
  appended).
* An HTTP exchange is modelled by passing the would-be `Response`
  explicitly: each method becomes a pure function from the client state,
  its arguments and the response to an `Outcome` (the request it issued,
  if any, and the Python value it returned), or a raised `PyExc`.
* `json.loads(resp.content)[k]` is modelled by the optional fields
  `Response.privateToken` / `Response.message`; a missing field raises
  `KeyError` exactly as in Python.  Returning the whole decoded body is
  modelled as `PyResult.json resp.content`.
* The `requests` library omits query parameters whose value is `None`
  from the encoded query string; `encodeParams` models that encoding
  step.
-/

/-- ASCII lower-casing of one character, as Python's `str.lower` acts on
the ASCII names used for access levels. -/
def lowerChar (c : Char) : Char :=
  if 65 ≤ c.toNat ∧ c.toNat ≤ 90 then Char.ofNat (c.toNat + 32) else c

/-- Python `s.lower()` (ASCII fragment, on the character list). -/
def pyLower (s : String) : String := ⟨s.data.map lowerChar⟩

/-- Python `s[:n]` (first `n` characters). -/
def strUpto (s : String) (n : Nat) : String := ⟨s.data.take n⟩

/-- Python `s[:-1]` (all but the last character). -/
def strDropLast (s : String) : String := ⟨s.data.dropLast⟩

/-- Python `s[-1]` (the last character, if any). -/
def strLast? (s : String) : Option Char := s.data.getLast?

/-- A Python scalar value as it appears in a request payload dict:
an int, a str, `None`, or — in `createissue` — the builtin function `id`
that the source accidentally places into the body. -/
inductive PyVal where
  | vint (n : Int)
  | vstr (s : String)
  | vnone
  | vbuiltinId
  deriving DecidableEq, Repr

/-- A Python dict of scalar payload values, as an insertion-ordered
association list. -/
abbrev Dict := List (String × PyVal)

/-- Python `d[k] = v`: overwrite in place if the key exists, else append. -/
def Dict.set (d : Dict) (k : String) (v : PyVal) : Dict :=
  if d.any (fun p => p.1 = k) then
    d.map (fun p => if p.1 = k then (k, v) else p)
  else
    d ++ [(k, v)]

/-- Python `d.update(kw)`. -/
def Dict.update (d kw : Dict) : Dict :=
  kw.foldl (fun acc p => Dict.set acc p.1 p.2) d

/-- Python `d.get(k)` / key lookup without raising. -/
def Dict.get? (d : Dict) (k : String) : Option PyVal :=
  (d.find? (fun p => p.1 = k)).map (fun p => p.2)

/-- The query string the `requests` library actually encodes from a params
dict: parameters whose value is `None` are omitted. -/
def encodeParams (d : Dict) : Dict :=
  d.filter (fun p => p.2 ≠ PyVal.vnone)

/-- A raised Python exception. `httpError` is `gitlab.exceptions.HttpError`
(imported from the package's `exceptions` module, which carries the remote
message). -/
inductive PyExc where
  | httpError (msg : String)
  | valueError (msg : String)
  | attributeError (attr : String)
  | keyError (key : String)
  deriving DecidableEq, Repr

/-- A Python value returned by one of the client methods: a boolean, the
implicit `None` of a path that falls off the end of the function, a decoded
JSON body, raw text, or a returned (not raised) `HttpError` object. -/
inductive PyResult where
  | bool (b : Bool)
  | pynone
  | json (body : String)
  | text (s : String)
  | httpErrorVal (msg : String)
  deriving DecidableEq, Repr

/-- HTTP verb of the issued request. -/
inductive Verb where
  | GET
  | POST
  | PUT
  | DELETE
  deriving DecidableEq, Repr

/-- The single HTTP request a method hands to the `requests` library:
verb, url, query-params dict, form-data dict, and the custom headers
passed (`none` when the call passes no `headers=` argument at all). -/
structure HttpRequest where
  verb : Verb
  url : String
  params : Dict
  body : Dict
  headers : Option Dict
  deriving DecidableEq, Repr

/-- The HTTP response the transport would deliver.  `privateToken` and
`message` model `json.loads(content)["private_token"]` and
`json.loads(content)["message"]`; `none` means the decoded body has no
such key (so accessing it raises `KeyError`). -/
structure Response where
  status_code : Nat
  content : String
  privateToken : Option String
  message : Option String
  deriving DecidableEq, Repr

/-- What one method call did: the request it issued (`none` when it
returned before issuing one) and the Python value it returned. -/
structure Outcome where
  req : Option HttpRequest
  ret : PyResult
  deriving DecidableEq, Repr

instance {ε α : Type} [DecidableEq ε] [DecidableEq α] : DecidableEq (Except ε α) :=
  fun a b =>
    match a, b with
    | .ok x, .ok y =>
        if h : x = y then .isTrue (by rw [h])
        else .isFalse (fun hc => h (Except.ok.inj hc))
    | .error x, .error y =>
        if h : x = y then .isTrue (by rw [h])
        else .isFalse (fun hc => h (Except.error.inj hc))
    | .ok _, .error _ => .isFalse (fun hc => Except.noConfusion hc)
    | .error _, .ok _ => .isFalse (fun hc => Except.noConfusion hc)

/-- The client session state built by `Gitlab.__init__` and mutated by
`login`: `token`/`headers` are `none` when the corresponding Python
attribute was never assigned (constructing with the default empty token
assigns neither). -/
structure Gitlab where
  host : String
  token : Option String
  headers : Option Dict
  verify_ssl : Bool
  api_url : String
  projects_url : String
  users_url : String
  keys_url : String
  groups_url : String
  search_url : String
  hook_url : String
  deriving DecidableEq, Repr

/-- Normalization of the host in `Gitlab.__init__`:
`if host[-1] == '/': self.host = host[:-1]`. -/
def stripTrailingSlash (h : String) : String :=
  if strLast? h = some '/' then strDropLast h else h

/-- `Gitlab.__init__(host, token="", verify_ssl=True)`.  Raises
`ValueError` when the host is empty; otherwise strips one trailing slash,
prepends `https://` unless the (stripped) host already carries an
`http://` or `https://` scheme (`host[:7] == 'http://' or host[:8] ==
'https://'`), and derives the API urls.  The `PRIVATE-TOKEN` header is
assigned only when a non-empty token was supplied. -/
def Gitlab.init (host token : String) (verify_ssl : Bool) : Except PyExc Gitlab :=
  if host = "" then .error (.valueError "host argument may not be empty")
  else
    let h1 := stripTrailingSlash host
    let h2 := if strUpto h1 7 = "http://" ∨ strUpto h1 8 = "https://"
              then h1 else "https://" ++ h1
    let api := h2 ++ "/api/v3"
    .ok { host := h2
        , token := if token = "" then none else some token
        , headers := if token = "" then none
                     else some [("PRIVATE-TOKEN", PyVal.vstr token)]
        , verify_ssl := verify_ssl
        , api_url := api
        , projects_url := api ++ "/projects"
        , users_url := api ++ "/users"
        , keys_url := api ++ "/user/keys"
        , groups_url := api ++ "/groups"
        , search_url := api ++ "/projects/search"
        , hook_url := api ++ "/hooks" }

/-- `Gitlab.login(email=None, password=None, user=None)`.  Builds the
session-creation POST (with only a `connection: close` header), and on 201
stores the returned private token into `self.token`/`self.headers` and
returns `True`; on any other status raises `HttpError` with the body's
`message` field.  Returns the issued request, the returned value and the
updated session. -/
def Gitlab.login (g : Gitlab) (email password user : Option String)
    (resp : Response) : Except PyExc (Outcome × Gitlab) :=
  let dataE : Except PyExc Dict :=
    match user with
    | some u => .ok [("login", PyVal.vstr u),
                     ("password", match password with
                                  | some p => PyVal.vstr p
                                  | none => PyVal.vnone)]
    | none =>
        match email with
        | some e => .ok [("email", PyVal.vstr e),
                         ("password", match password with
                                      | some p => PyVal.vstr p
                                      | none => PyVal.vnone)]
        | none => .error (.valueError "Neither username nor email provided to login")
  match dataE with
  | .error ex => .error ex
  | .ok data =>
    let req : HttpRequest :=
      ⟨.POST, g.host ++ "/api/v3/session", [], data,
       some [("connection", PyVal.vstr "close")]⟩
    if resp.status_code = 201 then
      match resp.privateToken with
      | none => .error (.keyError "private_token")
      | some tok =>
          .ok (⟨some req, .bool true⟩,
               { g with token := some tok
                      , headers := some [("PRIVATE-TOKEN", PyVal.vstr tok),
                                         ("connection", PyVal.vstr "close")] })
    else
      match resp.message with
      | none => .error (.keyError "message")
      | some m => .error (.httpError m)

/-- `Gitlab.getusers(search=None, page=1, per_page=20)`: GET on the users
url with `{page, per_page}` params, plus `search` when a truthy search
string was given; decoded body on 200, `False` otherwise. -/
def Gitlab.getusers (g : Gitlab) (search : Option String) (page per_page : Int)
    (resp : Response) : Except PyExc Outcome :=
  match g.headers with
  | none => .error (.attributeError "headers")
  | some hs =>
    let data : Dict := [("page", PyVal.vint page), ("per_page", PyVal.vint per_page)]
    let data1 : Dict :=
      match search with
      | some s => if s ≠ "" then Dict.set data "search" (PyVal.vstr s) else data
      | none => data
    let req : HttpRequest := ⟨.GET, g.users_url, data1, [], some hs⟩
    if resp.status_code = 200 then .ok ⟨some req, .json resp.content⟩
    else .ok ⟨some req, .bool false⟩

/-- `Gitlab.createfork(project_id)`: `requests.post("{}/fork/{}".format(
self.projects_url, project_id))` — note the source passes no `headers=`
(and no `verify=`) argument to this one request. -/
def Gitlab.createfork (g : Gitlab) (project_id : Int) (resp : Response) :
    Except PyExc Outcome :=
  let req : HttpRequest :=
    ⟨.POST, g.projects_url ++ "/fork/" ++ toString project_id, [], [], none⟩
  if resp.status_code = 200 then .ok ⟨some req, .bool true⟩
  else .ok ⟨some req, .bool false⟩

/-- `Gitlab.deleteuser(user_id)`: DELETE, `True` on 200 else `False`. -/
def Gitlab.deleteuser (g : Gitlab) (user_id : Int) (resp : Response) :
    Except PyExc Outcome :=
  match g.headers with
  | none => .error (.attributeError "headers")
  | some hs =>
    let req : HttpRequest :=
      ⟨.DELETE, g.users_url ++ "/" ++ toString user_id, [], [], some hs⟩
    if resp.status_code = 200 then .ok ⟨some req, .bool true⟩
    else .ok ⟨some req, .bool false⟩

/-- `Gitlab.deletesshkey(key_id)`: DELETE, then
`if request.content == b"null": return False else return True` — the
status code is never consulted. -/
def Gitlab.deletesshkey (g : Gitlab) (key_id : Int) (resp : Response) :
    Except PyExc Outcome :=
  match g.headers with
  | none => .error (.attributeError "headers")
  | some hs =>
    let req : HttpRequest :=
      ⟨.DELETE, g.keys_url ++ "/" ++ toString key_id, [], [], some hs⟩
    if resp.content = "null" then .ok ⟨some req, .bool false⟩
    else .ok ⟨some req, .bool true⟩

/-- `Gitlab.deleteproject(project_id)`: DELETE, `True` on 200; any other
status falls off the end of the function and returns `None`. -/
def Gitlab.deleteproject (g : Gitlab) (project_id : Int) (resp : Response) :
    Except PyExc Outcome :=
  match g.headers with
  | none => .error (.attributeError "headers")
  | some hs =>
    let req : HttpRequest :=
      ⟨.DELETE, g.projects_url ++ "/" ++ toString project_id, [], [], some hs⟩
    if resp.status_code = 200 then .ok ⟨some req, .bool true⟩
    else .ok ⟨some req, .pynone⟩

/-- `Gitlab.deleteprojectmember(project_id, user_id)`: DELETE, `True` on
200; any other status falls off the end and returns `None`. -/
def Gitlab.deleteprojectmember (g : Gitlab) (project_id user_id : Int)
    (resp : Response) : Except PyExc Outcome :=
  match g.headers with
  | none => .error (.attributeError "headers")
  | some hs =>
    let req : HttpRequest :=
      ⟨.DELETE, g.projects_url ++ "/" ++ toString project_id ++ "/members/" ++
        toString user_id, [], [], some hs⟩
    if resp.status_code = 200 then .ok ⟨some req, .bool true⟩
    else .ok ⟨some req, .pynone⟩

/-- `Gitlab.deletegroup(group_id)`: DELETE, `True` on 200 else `False`. -/
def Gitlab.deletegroup (g : Gitlab) (group_id : Int) (resp : Response) :
    Except PyExc Outcome :=
  match g.headers with
  | none => .error (.attributeError "headers")
  | some hs =>
    let req : HttpRequest :=
      ⟨.DELETE, g.groups_url ++ "/" ++ toString group_id, [], [], some hs⟩
    if resp.status_code = 200 then .ok ⟨some req, .bool true⟩
    else .ok ⟨some req, .bool false⟩

/-- `Gitlab.deletebranch(project_id, branch)`: DELETE, `True` on 200 else
`False`. -/
def Gitlab.deletebranch (g : Gitlab) (project_id : Int) (branch : String)
    (resp : Response) : Except PyExc Outcome :=
  match g.headers with
  | none => .error (.attributeError "headers")
  | some hs =>
    let req : HttpRequest :=
      ⟨.DELETE, g.projects_url ++ "/" ++ toString project_id ++
        "/repository/branches/" ++ branch, [], [], some hs⟩
    if resp.status_code = 200 then .ok ⟨some req, .bool true⟩
    else .ok ⟨some req, .bool false⟩

/-- `Gitlab.deleteprojecthook(project_id, hook_id)`: DELETE, `True` on 200
else `False`. -/
def Gitlab.deleteprojecthook (g : Gitlab) (project_id hook_id : Int)
    (resp : Response) : Except PyExc Outcome :=
  match g.headers with
  | none => .error (.attributeError "headers")
  | some hs =>
    let req : HttpRequest :=
      ⟨.DELETE, g.projects_url ++ "/" ++ toString project_id ++ "/hooks/" ++
        toString hook_id, [], [], some hs⟩
    if resp.status_code = 200 then .ok ⟨some req, .bool true⟩
    else .ok ⟨some req, .bool false⟩

/-- `Gitlab.deletesystemhook(hook_id)`: DELETE (with an `id` form field),
`True` on 200 else `False`. -/
def Gitlab.deletesystemhook (g : Gitlab) (hook_id : Int) (resp : Response) :
    Except PyExc Outcome :=
  match g.headers with
  | none => .error (.attributeError "headers")
  | some hs =>
    let req : HttpRequest :=
      ⟨.DELETE, g.hook_url ++ "/" ++ toString hook_id, [],
       [("id", PyVal.vint hook_id)], some hs⟩
    if resp.status_code = 200 then .ok ⟨some req, .bool true⟩
    else .ok ⟨some req, .bool false⟩

/-- `Gitlab.deletedeploykey(project_id, key_id)`: DELETE, `True` on 200
else `False`. -/
def Gitlab.deletedeploykey (g : Gitlab) (project_id key_id : Int)
    (resp : Response) : Except PyExc Outcome :=
  match g.headers with
  | none => .error (.attributeError "headers")
  | some hs =>
    let req : HttpRequest :=
      ⟨.DELETE, g.projects_url ++ "/" ++ toString project_id ++ "/keys/" ++
        toString key_id, [], [], some hs⟩
    if resp.status_code = 200 then .ok ⟨some req, .bool true⟩
    else .ok ⟨some req, .bool false⟩

/-- `Gitlab.deletesnippet(project_id, snippet_id)`: DELETE, `True` on 200
else `False`. -/
def Gitlab.deletesnippet (g : Gitlab) (project_id snippet_id : Int)
    (resp : Response) : Except PyExc Outcome :=
  match g.headers with
  | none => .error (.attributeError "headers")
  | some hs =>
    let req : HttpRequest :=
      ⟨.DELETE, g.projects_url ++ "/" ++ toString project_id ++ "/snippets/" ++
        toString snippet_id, [], [], some hs⟩
    if resp.status_code = 200 then .ok ⟨some req, .bool true⟩
    else .ok ⟨some req, .bool false⟩

/-- `Gitlab.deletegroupmember(group_id, user_id)`: DELETE, `True` on 200;
any other status falls off the end and returns `None`. -/
def Gitlab.deletegroupmember (g : Gitlab) (group_id user_id : Int)
    (resp : Response) : Except PyExc Outcome :=
  match g.headers with
  | none => .error (.attributeError "headers")
  | some hs =>
    let req : HttpRequest :=
      ⟨.DELETE, g.groups_url ++ "/" ++ toString group_id ++ "/members/" ++
        toString user_id, [], [], some hs⟩
    if resp.status_code = 200 then .ok ⟨some req, .bool true⟩
    else .ok ⟨some req, .pynone⟩

/-- `Gitlab.deletefile(project_id, file_path, branch_name, commit_message)`:
DELETE with the three form fields, `True` on 200 else `False`. -/
def Gitlab.deletefile (g : Gitlab) (project_id : Int)
    (file_path branch_name commit_message : String) (resp : Response) :
    Except PyExc Outcome :=
  match g.headers with
  | none => .error (.attributeError "headers")
  | some hs =>
    let req : HttpRequest :=
      ⟨.DELETE, g.projects_url ++ "/" ++ toString project_id ++
        "/repository/files", [],
       [("file_path", PyVal.vstr file_path), ("branch_name", PyVal.vstr branch_name),
        ("commit_message", PyVal.vstr commit_message)], some hs⟩
    if resp.status_code = 200 then .ok ⟨some req, .bool true⟩
    else .ok ⟨some req, .bool false⟩

/-- `Gitlab.deletegitlabciservice(project_id, token, project_url)`: DELETE
(the `token` and `project_url` parameters are accepted but unused), `True`
on 200 else `False`. -/
def Gitlab.deletegitlabciservice (g : Gitlab) (project_id : Int)
    (token project_url : String) (resp : Response) : Except PyExc Outcome :=
  match g.headers with
  | none => .error (.attributeError "headers")
  | some hs =>
    let req : HttpRequest :=
      ⟨.DELETE, g.projects_url ++ "/" ++ toString project_id ++
        "/services/gitlab-ci", [], [], some hs⟩
    if resp.status_code = 200 then .ok ⟨some req, .bool true⟩
    else .ok ⟨some req, .bool false⟩

/-- `Gitlab.deletelabel(project_id, name)`: DELETE with a `name` form
field, `True` on 200 else `False`. -/
def Gitlab.deletelabel (g : Gitlab) (project_id : Int) (name : String)
    (resp : Response) : Except PyExc Outcome :=
  match g.headers with
  | none => .error (.attributeError "headers")
  | some hs =>
    let req : HttpRequest :=
      ⟨.DELETE, g.projects_url ++ "/" ++ toString project_id ++ "/labels", [],
       [("name", PyVal.vstr name)], some hs⟩
    if resp.status_code = 200 then .ok ⟨some req, .bool true⟩
    else .ok ⟨some req, .bool false⟩

/-- `Gitlab.getmergerequests(project_id, page=1, per_page=20, state=None)`:
the params dict always carries the `state` key (possibly `None`, which the
`requests` encoding then omits); decoded body on 200, `False` otherwise. -/
def Gitlab.getmergerequests (g : Gitlab) (project_id : Int) (page per_page : Int)
    (state : Option String) (resp : Response) : Except PyExc Outcome :=
  match g.headers with
  | none => .error (.attributeError "headers")
  | some hs =>
    let data : Dict :=
      [("page", PyVal.vint page), ("per_page", PyVal.vint per_page),
       ("state", match state with
                 | some s => PyVal.vstr s
                 | none => PyVal.vnone)]
    let req : HttpRequest :=
      ⟨.GET, g.projects_url ++ "/" ++ toString project_id ++ "/merge_requests",
       data, [], some hs⟩
    if resp.status_code = 200 then .ok ⟨some req, .json resp.content⟩
    else .ok ⟨some req, .bool false⟩

/-- The access-level argument of `addgroupmember`, which first checks
`isinstance(access_level, int)` and otherwise treats it as a name. -/
inductive AccessArg where
  | int (n : Int)
  | name (s : String)
  deriving DecidableEq, Repr

/-- `Gitlab.addprojectmember(project_id, user_id, access_level)`: maps the
access-level name case-insensitively (`master`→40, `developer`→30,
`reporter`→20, anything else→10), POSTs it, `True` on 201 else `False`. -/
def Gitlab.addprojectmember (g : Gitlab) (project_id user_id : Int)
    (access_level : String) (resp : Response) : Except PyExc Outcome :=
  let lvl : Int :=
    if pyLower access_level = "master" then 40
    else if pyLower access_level = "developer" then 30
    else if pyLower access_level = "reporter" then 20
    else 10
  match g.headers with
  | none => .error (.attributeError "headers")
  | some hs =>
    let data : Dict := [("id", PyVal.vint project_id), ("user_id", PyVal.vint user_id),
                        ("access_level", PyVal.vint lvl)]
    let req : HttpRequest :=
      ⟨.POST, g.projects_url ++ "/" ++ toString project_id ++ "/members",
       [], data, some hs⟩
    if resp.status_code = 201 then .ok ⟨some req, .bool true⟩
    else .ok ⟨some req, .bool false⟩

/-- `Gitlab.editprojectmember(project_id, user_id, access_level)`: same
access-level mapping as `addprojectmember`, PUT, `True` on 200 else
`False`. -/
def Gitlab.editprojectmember (g : Gitlab) (project_id user_id : Int)
    (access_level : String) (resp : Response) : Except PyExc Outcome :=
  let lvl : Int :=
    if pyLower access_level = "master" then 40
    else if pyLower access_level = "developer" then 30
    else if pyLower access_level = "reporter" then 20
    else 10
  match g.headers with
  | none => .error (.attributeError "headers")
  | some hs =>
    let data : Dict := [("id", PyVal.vint project_id), ("user_id", PyVal.vint user_id),
                        ("access_level", PyVal.vint lvl)]
    let req : HttpRequest :=
      ⟨.PUT, g.projects_url ++ "/" ++ toString project_id ++ "/members/" ++
        toString user_id, [], data, some hs⟩
    if resp.status_code = 200 then .ok ⟨some req, .bool true⟩
    else .ok ⟨some req, .bool false⟩

/-- `Gitlab.addgroupmember(group_id, user_id, access_level)`: an int
access level is used as is; a name is mapped case-insensitively
(`owner`→50, `master`→40, `developer`→30, `reporter`→20, `guest`→10) and
an unrecognized name returns `False` before any request is issued. -/
def Gitlab.addgroupmember (g : Gitlab) (group_id user_id : Int)
    (access_level : AccessArg) (resp : Response) : Except PyExc Outcome :=
  let lvlO : Option Int :=
    match access_level with
    | .int n => some n
    | .name s =>
      if pyLower s = "owner" then some 50
      else if pyLower s = "master" then some 40
      else if pyLower s = "developer" then some 30
      else if pyLower s = "reporter" then some 20
      else if pyLower s = "guest" then some 10
      else none
  match lvlO with
  | none => .ok ⟨none, .bool false⟩
  | some lvl =>
    match g.headers with
    | none => .error (.attributeError "headers")
    | some hs =>
      let data : Dict := [("id", PyVal.vint group_id), ("user_id", PyVal.vint user_id),
                          ("access_level", PyVal.vint lvl)]
      let req : HttpRequest :=
        ⟨.POST, g.groups_url ++ "/" ++ toString group_id ++ "/members",
         [], data, some hs⟩
      if resp.status_code = 201 then .ok ⟨some req, .bool true⟩
      else .ok ⟨some req, .bool false⟩

/-- `Gitlab.creategroup(name, path)`: POST; decoded body on 201, and on
any other status it RETURNS (not raises) `exceptions.HttpError(msg)` built
from the body's `message` field. -/
def Gitlab.creategroup (g : Gitlab) (name path : String) (resp : Response) :
    Except PyExc Outcome :=
  match g.headers with
  | none => .error (.attributeError "headers")
  | some hs =>
    let req : HttpRequest :=
      ⟨.POST, g.groups_url, [],
       [("name", PyVal.vstr name), ("path", PyVal.vstr path)], some hs⟩
    if resp.status_code = 201 then .ok ⟨some req, .json resp.content⟩
    else
      match resp.message with
      | none => .error (.keyError "message")
      | some m => .ok ⟨some req, .httpErrorVal m⟩

/-- `Gitlab.getrepositorybranch(project_id, branch)`: decoded body on 200;
on 404 it returns `False` only when the body's message is exactly
`"404 Branch does not exist Not Found"`, and otherwise falls off the `if`
without an inner else — returning `None`; every remaining status returns
`False`. -/
def Gitlab.getrepositorybranch (g : Gitlab) (project_id : Int) (branch : String)
    (resp : Response) : Except PyExc Outcome :=
  match g.headers with
  | none => .error (.attributeError "headers")
  | some hs =>
    let req : HttpRequest :=
      ⟨.GET, g.projects_url ++ "/" ++ toString project_id ++
        "/repository/branches/" ++ branch, [], [], some hs⟩
    if resp.status_code = 200 then .ok ⟨some req, .json resp.content⟩
    else if resp.status_code = 404 then
      match resp.message with
      | none => .error (.keyError "message")
      | some m =>
          if m = "404 Branch does not exist Not Found" then
            .ok ⟨some req, .bool false⟩
          else
            .ok ⟨some req, .pynone⟩
    else .ok ⟨some req, .bool false⟩

/-- Modelled from the spec: the uniform branch lookup the specification
says `getrepositorybranch` is extensionally equal to — "returns the
decoded body on 200 and the same single not-found sentinel on every
non-200 response" (the sentinel being the `False` the source returns on
its other failure paths). -/
def getrepositorybranchUniform (g : Gitlab) (project_id : Int) (branch : String)
    (resp : Response) : Except PyExc Outcome :=
  match g.headers with
  | none => .error (.attributeError "headers")
  | some hs =>
    let req : HttpRequest :=
      ⟨.GET, g.projects_url ++ "/" ++ toString project_id ++
        "/repository/branches/" ++ branch, [], [], some hs⟩
    if resp.status_code = 200 then .ok ⟨some req, .json resp.content⟩
    else .ok ⟨some req, .bool false⟩

/-- `Gitlab.createissue(project_id, title, **kwargs)`: the body dict is
`{"id": id, "title": title}` — `id` being the Python BUILTIN function
`id`, not the `project_id` parameter — updated with the kwargs; the
`project_id` only reaches the URL.  Decoded body on 201, else `False`. -/
def Gitlab.createissue (g : Gitlab) (project_id : Int) (title : String)
    (kwargs : Dict) (resp : Response) : Except PyExc Outcome :=
  match g.headers with
  | none => .error (.attributeError "headers")
  | some hs =>
    let data : Dict := [("id", PyVal.vbuiltinId), ("title", PyVal.vstr title)]
    let data1 : Dict := if kwargs = [] then data else Dict.update data kwargs
    let req : HttpRequest :=
      ⟨.POST, g.projects_url ++ "/" ++ toString project_id ++ "/issues",
       [], data1, some hs⟩
    if resp.status_code = 201 then .ok ⟨some req, .json resp.content⟩
    else .ok ⟨some req, .bool false⟩

/-- The value a finished call placed under key `k` of the body of the
request it issued (when it neither raised nor skipped the request). -/
def sentField (e : Except PyExc Outcome) (k : String) : Option PyVal :=
  match e with
  | .ok ⟨some r, _⟩ => Dict.get? r.body k
  | _ => none

/-- Scheme test of the specification's construction contract: the host
already starts with `http://` or `https://`. -/
def hasScheme (h : String) : Bool :=
  "http://".data.isPrefixOf h.data || "https://".data.isPrefixOf h.data

/-- A concrete client as `Gitlab("gitlab.example.com", token="secret")`
builds it. -/
def exampleClient : Gitlab :=
  { host := "https://gitlab.example.com"
  , token := some "secret"
  , headers := some [("PRIVATE-TOKEN", PyVal.vstr "secret")]
  , verify_ssl := true
  , api_url := "https://gitlab.example.com/api/v3"
  , projects_url := "https://gitlab.example.com/api/v3/projects"
  , users_url := "https://gitlab.example.com/api/v3/users"
  , keys_url := "https://gitlab.example.com/api/v3/user/keys"
  , groups_url := "https://gitlab.example.com/api/v3/groups"
  , search_url := "https://gitlab.example.com/api/v3/projects/search"
  , hook_url := "https://gitlab.example.com/api/v3/hooks" }

/-- A concrete client as `Gitlab("gitlab.example.com")` (default empty
token) builds it: neither the token nor the headers attribute is ever
assigned. -/
def exampleClientNoToken : Gitlab :=
  { host := "https://gitlab.example.com"
  , token := none
  , headers := none
  , verify_ssl := true
  , api_url := "https://gitlab.example.com/api/v3"
  , projects_url := "https://gitlab.example.com/api/v3/projects"
  , users_url := "https://gitlab.example.com/api/v3/users"
  , keys_url := "https://gitlab.example.com/api/v3/user/keys"
  , groups_url := "https://gitlab.example.com/api/v3/groups"
  , search_url := "https://gitlab.example.com/api/v3/projects/search"
  , hook_url := "https://gitlab.example.com/api/v3/hooks" }

/-- A 200 response with an empty JSON-array body. -/
def respOk : Response := ⟨200, "[]", none, none⟩

/-- A 404 response whose decoded body carries a generic message. -/
def resp404 : Response := ⟨404, "json body: 404 Not Found", none, some "404 Not Found"⟩

/-- Overwriting the existing occurrences of key `k2` in place does not
disturb the lookup of a different key `k`. -/
theorem dict_get?_map_overwrite (d : Dict) (k k2 : String) (v : PyVal) (h : ¬ k2 = k) :
    Dict.get? (d.map (fun p => if p.1 = k2 then (k2, v) else p)) k = Dict.get? d k := by
  induction d with
  | nil => rfl
  | cons p d ih =>
      unfold Dict.get? at ih ⊢
      rw [List.map_cons]
      by_cases hp : p.1 = k2
      · rw [if_pos hp]
        rw [List.find?_cons_of_neg _ (by simp [h]),
            List.find?_cons_of_neg _ (by simp [hp, h])]
        exact ih
      · rw [if_neg hp]
        by_cases hk : p.1 = k
        · rw [List.find?_cons_of_pos _ (by simp [hk]),
              List.find?_cons_of_pos _ (by simp [hk])]
        · rw [List.find?_cons_of_neg _ (by simp [hk]),
              List.find?_cons_of_neg _ (by simp [hk])]
          exact ih

/-- Setting one key does not disturb the lookup of a different key. -/
theorem dict_get?_set_of_ne (d : Dict) (k k2 : String) (v : PyVal) (h : ¬ k2 = k) :
    Dict.get? (Dict.set d k2 v) k = Dict.get? d k := by
  unfold Dict.set
  split
  · exact dict_get?_map_overwrite d k k2 v h
  · unfold Dict.get?
    rw [List.find?_append]
    have hn : List.find? (fun p => decide (p.1 = k)) [(k2, v)] = none := by
      rw [List.find?_cons_of_neg _ (by simp [h]), List.find?_nil]
    rw [hn, Option.or_none]

/-- Updating with a dict that lacks key `k` does not disturb `k`. -/
theorem dict_get?_update_of_absent (kw d : Dict) (k : String)
    (h : Dict.get? kw k = none) :
    Dict.get? (Dict.update d kw) k = Dict.get? d k := by
  induction kw generalizing d with
  | nil => rfl
  | cons p kw ih =>
      by_cases hp : p.1 = k
      · exfalso
        unfold Dict.get? at h
        rw [List.find?_cons_of_pos _ (by simp [hp])] at h
        exact Option.noConfusion h
      · have hkw : Dict.get? kw k = none := by
          unfold Dict.get? at h ⊢
          rw [List.find?_cons_of_neg _ (by simp [hp])] at h
          exact h
        unfold Dict.update at ih ⊢
        rw [List.foldl_cons, ih _ hkw, dict_get?_set_of_ne _ _ _ _ hp]

/-- Python `h[:n] == p` (for `n` the length of `p`) is exactly the
prefix test of the specification. -/
theorem strUpto_eq_iff (h p : String) :
    strUpto h p.data.length = p ↔ p.data.isPrefixOf h.data = true := by
  rw [ List.isPrefixOf_iff_prefix, List.prefix_iff_eq_take, strUpto, String.ext_iff]
  exact ⟨fun he => he.symm, fun he => he.symm⟩

/-- The scheme condition checked by `Gitlab.__init__` coincides with the
specification's "starts with `http://` or `https://`". -/
theorem hasScheme_iff (s : String) :
    (strUpto s 7 = "http://" ∨ strUpto s 8 = "https://") ↔ hasScheme s = true := by
  have e1 := strUpto_eq_iff s "http://"
  have e2 := strUpto_eq_iff s "https://"
  have l1 : ("http://" : String).data.length = 7 := rfl
  have l2 : ("https://" : String).data.length = 8 := rfl
  rw [l1] at e1
  rw [l2] at e2
  rw [hasScheme, Bool.or_eq_true]
  exact or_congr e1 e2

/-- Claim C1: the session's `PRIVATE-TOKEN` header is NOT attached by every
request-issuing method: `createfork` hands the `requests` library no
`headers=` argument at all, so on a client whose auth header is set the
fork request goes out with no custom headers, while e.g. `getusers`
attaches the session's headers as the claim describes. -/
theorem claim_C1_createfork_missing_auth_header :
    exampleClient.headers = some [("PRIVATE-TOKEN", PyVal.vstr "secret")] ∧
    (∀ resp : Response,
        Except.map (fun o => o.req.map (fun r => r.headers))
          (Gitlab.createfork exampleClient 5 resp) = .ok (some none)) ∧
    (∀ resp : Response,
        Except.map (fun o => o.req.map (fun r => r.headers))
          (Gitlab.getusers exampleClient none 1 20 resp)
          = .ok (some exampleClient.headers)) := by
  refine ⟨rfl, fun resp => ?_, fun resp => ?_⟩ <;>
    by_cases h : resp.status_code = 200 <;>
      simp only [Gitlab.createfork, Gitlab.getusers, exampleClient, h,
                 if_true, if_false] <;>
      rfl

/-- Claim C2, counterexample: `deletesshkey` ignores the status code —
on a 404 whose body is not the literal `null` it returns `True`, where the
claim demands `False`; and `deleteproject` on a non-200 returns `None`,
not `False`. -/
theorem claim_C2_counterexample :
    Except.map Outcome.ret (Gitlab.deletesshkey exampleClient 3 resp404)
      = .ok (.bool true) ∧
    resp404.status_code = 404 ∧
    Except.map Outcome.ret (Gitlab.deleteproject exampleClient 7 ⟨500, "err", none, none⟩)
      = .ok .pynone := ⟨rfl, rfl, rfl⟩

/-- Claim C2 as amended, covering all fourteen delete operations of the
source: on a session with its headers set, `deleteuser`,
`deleteprojecthook`, `deletesystemhook`, `deletebranch`,
`deletedeploykey`, `deletesnippet`, `deletegroup`, `deletefile`,
`deletegitlabciservice` and `deletelabel` return `True` iff the status is
200 and `False` otherwise, regardless of the body; but `deletesshkey`
returns `True` iff the body is not the literal `null`, regardless of the
status; and `deleteproject`, `deleteprojectmember` and
`deletegroupmember` return `True` on 200 and `None` (not `False`) on
every other status. -/
theorem claim_C2_delete_return_values (g : Gitlab) (hs : Dict)
    (uid kid pid mid gid bpid hid sid : Int)
    (branch fpath bname cmsg tok purl lname : String) (resp : Response) :
    Except.map Outcome.ret (Gitlab.deleteuser {g with headers := some hs} uid resp)
      = .ok (if resp.status_code = 200 then .bool true else .bool false) ∧
    Except.map Outcome.ret (Gitlab.deleteprojecthook {g with headers := some hs} pid hid resp)
      = .ok (if resp.status_code = 200 then .bool true else .bool false) ∧
    Except.map Outcome.ret (Gitlab.deletesystemhook {g with headers := some hs} hid resp)
      = .ok (if resp.status_code = 200 then .bool true else .bool false) ∧
    Except.map Outcome.ret (Gitlab.deletebranch {g with headers := some hs} bpid branch resp)
      = .ok (if resp.status_code = 200 then .bool true else .bool false) ∧
    Except.map Outcome.ret (Gitlab.deletedeploykey {g with headers := some hs} pid kid resp)
      = .ok (if resp.status_code = 200 then .bool true else .bool false) ∧
    Except.map Outcome.ret (Gitlab.deletesnippet {g with headers := some hs} pid sid resp)
      = .ok (if resp.status_code = 200 then .bool true else .bool false) ∧
    Except.map Outcome.ret (Gitlab.deletegroup {g with headers := some hs} gid resp)
      = .ok (if resp.status_code = 200 then .bool true else .bool false) ∧
    Except.map Outcome.ret (Gitlab.deletefile {g with headers := some hs} pid fpath bname cmsg resp)
      = .ok (if resp.status_code = 200 then .bool true else .bool false) ∧
    Except.map Outcome.ret (Gitlab.deletegitlabciservice {g with headers := some hs} pid tok purl resp)
      = .ok (if resp.status_code = 200 then .bool true else .bool false) ∧
    Except.map Outcome.ret (Gitlab.deletelabel {g with headers := some hs} pid lname resp)
      = .ok (if resp.status_code = 200 then .bool true else .bool false) ∧
    Except.map Outcome.ret (Gitlab.deletesshkey {g with headers := some hs} kid resp)
      = .ok (if resp.content = "null" then .bool false else .bool true) ∧
    Except.map Outcome.ret (Gitlab.deleteproject {g with headers := some hs} pid resp)
      = .ok (if resp.status_code = 200 then .bool true else .pynone) ∧
    Except.map Outcome.ret (Gitlab.deleteprojectmember {g with headers := some hs} pid mid resp)
      = .ok (if resp.status_code = 200 then .bool true else .pynone) ∧
    Except.map Outcome.ret (Gitlab.deletegroupmember {g with headers := some hs} gid uid resp)
      = .ok (if resp.status_code = 200 then .bool true else .pynone) := by
  refine ⟨?_, ?_, ?_, ?_, ?_, ?_, ?_, ?_, ?_, ?_, ?_, ?_, ?_, ?_⟩ <;>
    first
    | (by_cases h : resp.status_code = 200 <;>
         simp [Gitlab.deleteuser, Gitlab.deleteprojecthook,
               Gitlab.deletesystemhook, Gitlab.deletebranch,
               Gitlab.deletedeploykey, Gitlab.deletesnippet,
               Gitlab.deletegroup, Gitlab.deletefile,
               Gitlab.deletegitlabciservice, Gitlab.deletelabel,
               Gitlab.deleteproject, Gitlab.deleteprojectmember,
               Gitlab.deletegroupmember, h] <;>
         rfl)
    | (by_cases h : resp.content = "null" <;>
         simp [Gitlab.deletesshkey, h] <;>
         rfl)

/-- Claim C3: with the default `page=1`, `per_page=20` and no filter, the
encoded query string carries exactly the two pagination parameters; a
supplied (truthy) `search` on `getusers`, or a supplied `state` on
`getmergerequests`, adds exactly that one filter parameter.  (The
`getmergerequests` params dict always holds the `state` key, but the
`requests` encoding drops it when it is `None`.) -/
theorem claim_C3_list_query_params (g : Gitlab) (hs : Dict) (pid : Int)
    (s : String) (resp : Response) :
    Except.map (fun o => o.req.map (fun r => encodeParams r.params))
      (Gitlab.getusers {g with headers := some hs} none 1 20 resp)
      = .ok (some [("page", PyVal.vint 1), ("per_page", PyVal.vint 20)]) ∧
    (s ≠ "" →
      Except.map (fun o => o.req.map (fun r => encodeParams r.params))
        (Gitlab.getusers {g with headers := some hs} (some s) 1 20 resp)
        = .ok (some [("page", PyVal.vint 1), ("per_page", PyVal.vint 20),
                     ("search", PyVal.vstr s)])) ∧
    Except.map (fun o => o.req.map (fun r => encodeParams r.params))
      (Gitlab.getmergerequests {g with headers := some hs} pid 1 20 none resp)
      = .ok (some [("page", PyVal.vint 1), ("per_page", PyVal.vint 20)]) ∧
    Except.map (fun o => o.req.map (fun r => encodeParams r.params))
      (Gitlab.getmergerequests {g with headers := some hs} pid 1 20 (some s) resp)
      = .ok (some [("page", PyVal.vint 1), ("per_page", PyVal.vint 20),
                   ("state", PyVal.vstr s)]) := by
  refine ⟨?_, fun hsne => ?_, ?_, ?_⟩
  · by_cases h : resp.status_code = 200 <;>
      simp only [Gitlab.getusers, h, if_true, if_false] <;> rfl
  · by_cases h : resp.status_code = 200 <;>
      simp only [Gitlab.getusers, h, hsne, ne_eq, not_false_eq_true,
                 if_true, if_false] <;> rfl
  · by_cases h : resp.status_code = 200 <;>
      simp only [Gitlab.getmergerequests, h, if_true, if_false] <;> rfl
  · by_cases h : resp.status_code = 200 <;>
      simp only [Gitlab.getmergerequests, h, if_true, if_false] <;> rfl

/-- Claim C3, witness: the four facts at a concrete client, search string
`jsmith` and a 200 response. -/
theorem claim_C3_witness :
    Except.map (fun o => o.req.map (fun r => encodeParams r.params))
      (Gitlab.getusers {exampleClient with
        headers := some [("PRIVATE-TOKEN", PyVal.vstr "secret")]} none 1 20 respOk)
      = .ok (some [("page", PyVal.vint 1), ("per_page", PyVal.vint 20)]) ∧
    Except.map (fun o => o.req.map (fun r => encodeParams r.params))
      (Gitlab.getusers {exampleClient with
        headers := some [("PRIVATE-TOKEN", PyVal.vstr "secret")]} (some "jsmith") 1 20 respOk)
      = .ok (some [("page", PyVal.vint 1), ("per_page", PyVal.vint 20),
                   ("search", PyVal.vstr "jsmith")]) ∧
    Except.map (fun o => o.req.map (fun r => encodeParams r.params))
      (Gitlab.getmergerequests {exampleClient with
        headers := some [("PRIVATE-TOKEN", PyVal.vstr "secret")]} 4 1 20 none respOk)
      = .ok (some [("page", PyVal.vint 1), ("per_page", PyVal.vint 20)]) ∧
    Except.map (fun o => o.req.map (fun r => encodeParams r.params))
      (Gitlab.getmergerequests {exampleClient with
        headers := some [("PRIVATE-TOKEN", PyVal.vstr "secret")]} 4 1 20 (some "opened") respOk)
      = .ok (some [("page", PyVal.vint 1), ("per_page", PyVal.vint 20),
                   ("state", PyVal.vstr "opened")]) :=
  ⟨(claim_C3_list_query_params exampleClient [("PRIVATE-TOKEN", PyVal.vstr "secret")] 4 "jsmith" respOk).1,
   (claim_C3_list_query_params exampleClient [("PRIVATE-TOKEN", PyVal.vstr "secret")] 4 "jsmith" respOk).2.1 (by decide),
   (claim_C3_list_query_params exampleClient [("PRIVATE-TOKEN", PyVal.vstr "secret")] 4 "opened" respOk).2.2.1,
   (claim_C3_list_query_params exampleClient [("PRIVATE-TOKEN", PyVal.vstr "secret")] 4 "opened" respOk).2.2.2⟩

/-- Claim C4: `login` returns `True` exactly when the response is a 201
carrying a `private_token` field, in which case the token is stored into
the session (token attribute and `PRIVATE-TOKEN` header); on any other
status it raises `HttpError` with the body's `message` field, producing
no updated session (so the session the caller holds is unchanged). -/
theorem claim_C4_login (g : Gitlab) (u p : String) (resp : Response) :
    (∀ out st, Gitlab.login g none (some p) (some u) resp = .ok (out, st) →
        out.ret = .bool true ∧ resp.status_code = 201 ∧
        ∃ t, resp.privateToken = some t ∧ st.token = some t ∧
          st.headers = some [("PRIVATE-TOKEN", PyVal.vstr t),
                             ("connection", PyVal.vstr "close")]) ∧
    (∀ t, resp.status_code = 201 → resp.privateToken = some t →
        Gitlab.login g none (some p) (some u) resp =
          .ok (⟨some ⟨.POST, g.host ++ "/api/v3/session", [],
                      [("login", PyVal.vstr u), ("password", PyVal.vstr p)],
                      some [("connection", PyVal.vstr "close")]⟩, .bool true⟩,
               { g with token := some t
                      , headers := some [("PRIVATE-TOKEN", PyVal.vstr t),
                                         ("connection", PyVal.vstr "close")] })) ∧
    (∀ m, resp.status_code ≠ 201 → resp.message = some m →
        Gitlab.login g none (some p) (some u) resp = .error (.httpError m)) := by
  refine ⟨?_, ?_, ?_⟩
  · intro out st hok
    simp only [Gitlab.login] at hok
    by_cases h201 : resp.status_code = 201
    · rw [if_pos h201] at hok
      cases ht : resp.privateToken with
      | none => rw [ht] at hok; exact Except.noConfusion hok
      | some t =>
          rw [ht] at hok
          have hps := Except.ok.inj hok
          injection hps with h1 h2
          rw [← h1, ← h2]
          exact ⟨rfl, h201, t, rfl, rfl, rfl⟩
    · rw [if_neg h201] at hok
      cases hm : resp.message with
      | none => rw [hm] at hok; exact Except.noConfusion hok
      | some m => rw [hm] at hok; exact Except.noConfusion hok
  · intro t h201 ht
    simp only [Gitlab.login, ht, if_pos h201]
  · intro m hne hm
    simp only [Gitlab.login, hm, if_neg hne]

/-- Claim C4, witness: a 201 response carrying a token logs in and stores
it; a 401 response with a message raises `HttpError` with that message. -/
theorem claim_C4_witness :
    Gitlab.login exampleClient none (some "pw") (some "root") ⟨201, "", some "tok", none⟩ =
      .ok (⟨some ⟨.POST, exampleClient.host ++ "/api/v3/session", [],
                  [("login", PyVal.vstr "root"), ("password", PyVal.vstr "pw")],
                  some [("connection", PyVal.vstr "close")]⟩, .bool true⟩,
           { exampleClient with
               token := some "tok"
             , headers := some [("PRIVATE-TOKEN", PyVal.vstr "tok"),
                                ("connection", PyVal.vstr "close")] }) ∧
    Gitlab.login exampleClient none (some "pw") (some "root")
        ⟨401, "", none, some "401 Unauthorized"⟩ = .error (.httpError "401 Unauthorized") :=
  ⟨(claim_C4_login exampleClient "root" "pw" ⟨201, "", some "tok", none⟩).2.1 "tok" rfl rfl,
   (claim_C4_login exampleClient "root" "pw" ⟨401, "", none, some "401 Unauthorized"⟩).2.2
     "401 Unauthorized" (by decide) rfl⟩

/-- Claim C5: access-level names are mapped case-insensitively; the
project-member operations send 40/30/20 for master/developer/reporter and
10 for every other name (owner and guest included), while `addgroupmember`
sends 50/40/30/20/10 for owner/master/developer/reporter/guest and returns
`False` without issuing any request for an unrecognized name. -/
theorem claim_C5_access_levels (g : Gitlab) (hs : Dict) (pid uid gid : Int)
    (s : String) (resp : Response) :
    (pyLower s = "master" →
        sentField (Gitlab.addprojectmember {g with headers := some hs} pid uid s resp)
          "access_level" = some (PyVal.vint 40) ∧
        sentField (Gitlab.editprojectmember {g with headers := some hs} pid uid s resp)
          "access_level" = some (PyVal.vint 40) ∧
        sentField (Gitlab.addgroupmember {g with headers := some hs} gid uid (.name s) resp)
          "access_level" = some (PyVal.vint 40)) ∧
    (pyLower s = "developer" →
        sentField (Gitlab.addprojectmember {g with headers := some hs} pid uid s resp)
          "access_level" = some (PyVal.vint 30) ∧
        sentField (Gitlab.editprojectmember {g with headers := some hs} pid uid s resp)
          "access_level" = some (PyVal.vint 30) ∧
        sentField (Gitlab.addgroupmember {g with headers := some hs} gid uid (.name s) resp)
          "access_level" = some (PyVal.vint 30)) ∧
    (pyLower s = "reporter" →
        sentField (Gitlab.addprojectmember {g with headers := some hs} pid uid s resp)
          "access_level" = some (PyVal.vint 20) ∧
        sentField (Gitlab.editprojectmember {g with headers := some hs} pid uid s resp)
          "access_level" = some (PyVal.vint 20) ∧
        sentField (Gitlab.addgroupmember {g with headers := some hs} gid uid (.name s) resp)
          "access_level" = some (PyVal.vint 20)) ∧
    (pyLower s = "owner" →
        sentField (Gitlab.addprojectmember {g with headers := some hs} pid uid s resp)
          "access_level" = some (PyVal.vint 10) ∧
        sentField (Gitlab.editprojectmember {g with headers := some hs} pid uid s resp)
          "access_level" = some (PyVal.vint 10) ∧
        sentField (Gitlab.addgroupmember {g with headers := some hs} gid uid (.name s) resp)
          "access_level" = some (PyVal.vint 50)) ∧
    (pyLower s = "guest" →
        sentField (Gitlab.addprojectmember {g with headers := some hs} pid uid s resp)
          "access_level" = some (PyVal.vint 10) ∧
        sentField (Gitlab.editprojectmember {g with headers := some hs} pid uid s resp)
          "access_level" = some (PyVal.vint 10) ∧
        sentField (Gitlab.addgroupmember {g with headers := some hs} gid uid (.name s) resp)
          "access_level" = some (PyVal.vint 10)) ∧
    (pyLower s ∉ (["owner", "master", "developer", "reporter", "guest"] : List String) →
        sentField (Gitlab.addprojectmember {g with headers := some hs} pid uid s resp)
          "access_level" = some (PyVal.vint 10) ∧
        sentField (Gitlab.editprojectmember {g with headers := some hs} pid uid s resp)
          "access_level" = some (PyVal.vint 10) ∧
        Gitlab.addgroupmember {g with headers := some hs} gid uid (.name s) resp
          = .ok ⟨none, .bool false⟩) := by
  refine ⟨fun hl => ?_, fun hl => ?_, fun hl => ?_, fun hl => ?_, fun hl => ?_, fun hno => ?_⟩
  · refine ⟨?_, ?_, ?_⟩ <;>
      simp only [Gitlab.addprojectmember, Gitlab.editprojectmember,
            Gitlab.addgroupmember, hl] <;>
      simp <;>
      split <;> rfl
  · refine ⟨?_, ?_, ?_⟩ <;>
      simp only [Gitlab.addprojectmember, Gitlab.editprojectmember,
            Gitlab.addgroupmember, hl] <;>
      simp <;>
      split <;> rfl
  · refine ⟨?_, ?_, ?_⟩ <;>
      simp only [Gitlab.addprojectmember, Gitlab.editprojectmember,
            Gitlab.addgroupmember, hl] <;>
      simp <;>
      split <;> rfl
  · refine ⟨?_, ?_, ?_⟩ <;>
      simp only [Gitlab.addprojectmember, Gitlab.editprojectmember,
            Gitlab.addgroupmember, hl] <;>
      simp <;>
      split <;> rfl
  · refine ⟨?_, ?_, ?_⟩ <;>
      simp only [Gitlab.addprojectmember, Gitlab.editprojectmember,
            Gitlab.addgroupmember, hl] <;>
      simp <;>
      split <;> rfl
  · simp only [List.mem_cons, List.mem_singleton, not_or] at hno
    obtain ⟨h1, h2, h3, h4, h5⟩ := hno
    refine ⟨?_, ?_, ?_⟩ <;>
      simp [Gitlab.addprojectmember, Gitlab.editprojectmember,
            Gitlab.addgroupmember, h1, h2, h3, h4, h5] <;>
      split <;> rfl

/-- Claim C5, witness: concrete names exercising the master, owner and
unrecognized cases against a concrete client. -/
theorem claim_C5_witness :
    (sentField (Gitlab.addprojectmember {exampleClient with
        headers := some [("PRIVATE-TOKEN", PyVal.vstr "secret")]} 1 2 "Master" respOk)
        "access_level" = some (PyVal.vint 40) ∧
     sentField (Gitlab.editprojectmember {exampleClient with
        headers := some [("PRIVATE-TOKEN", PyVal.vstr "secret")]} 1 2 "Master" respOk)
        "access_level" = some (PyVal.vint 40) ∧
     sentField (Gitlab.addgroupmember {exampleClient with
        headers := some [("PRIVATE-TOKEN", PyVal.vstr "secret")]} 3 2 (.name "Master") respOk)
        "access_level" = some (PyVal.vint 40)) ∧
    (sentField (Gitlab.addprojectmember {exampleClient with
        headers := some [("PRIVATE-TOKEN", PyVal.vstr "secret")]} 1 2 "Owner" respOk)
        "access_level" = some (PyVal.vint 10) ∧
     sentField (Gitlab.editprojectmember {exampleClient with
        headers := some [("PRIVATE-TOKEN", PyVal.vstr "secret")]} 1 2 "Owner" respOk)
        "access_level" = some (PyVal.vint 10) ∧
     sentField (Gitlab.addgroupmember {exampleClient with
        headers := some [("PRIVATE-TOKEN", PyVal.vstr "secret")]} 3 2 (.name "Owner") respOk)
        "access_level" = some (PyVal.vint 50)) ∧
    (sentField (Gitlab.addprojectmember {exampleClient with
        headers := some [("PRIVATE-TOKEN", PyVal.vstr "secret")]} 1 2 "admin" respOk)
        "access_level" = some (PyVal.vint 10) ∧
     sentField (Gitlab.editprojectmember {exampleClient with
        headers := some [("PRIVATE-TOKEN", PyVal.vstr "secret")]} 1 2 "admin" respOk)
        "access_level" = some (PyVal.vint 10) ∧
     Gitlab.addgroupmember {exampleClient with
        headers := some [("PRIVATE-TOKEN", PyVal.vstr "secret")]} 3 2 (.name "admin") respOk
        = .ok ⟨none, .bool false⟩) :=
  ⟨(claim_C5_access_levels exampleClient [("PRIVATE-TOKEN", PyVal.vstr "secret")]
      1 2 3 "Master" respOk).1 (by decide),
   (claim_C5_access_levels exampleClient [("PRIVATE-TOKEN", PyVal.vstr "secret")]
      1 2 3 "Owner" respOk).2.2.2.1 (by decide),
   (claim_C5_access_levels exampleClient [("PRIVATE-TOKEN", PyVal.vstr "secret")]
      1 2 3 "admin" respOk).2.2.2.2.2 (by decide)⟩

/-- Claim C6, counterexample: on a 400 response `creategroup` does not
raise — it returns normally, with the `HttpError` object as its value. -/
theorem claim_C6_counterexample :
    Except.map Outcome.ret
      (Gitlab.creategroup exampleClient "g1" "g1"
        ⟨400, "json body: Failed to save group", none, some "Failed to save group"⟩)
      = .ok (.httpErrorVal "Failed to save group") := rfl

/-- Claim C6 as amended: on every non-201 response whose body carries a
`message` field, `creategroup` RETURNS (rather than raises) an
`exceptions.HttpError` object built from that remote message — it does
not return the usual `False` sentinel, but it does not raise either. -/
theorem claim_C6_creategroup_error (g : Gitlab) (hs : Dict) (name path : String)
    (resp : Response) (m : String) :
    resp.status_code ≠ 201 → resp.message = some m →
    Except.map Outcome.ret (Gitlab.creategroup {g with headers := some hs} name path resp)
      = .ok (.httpErrorVal m) := by
  intro hne hm
  simp only [Gitlab.creategroup, hne, hm, if_false, ite_false]
  rfl

/-- Claim C6, witness: the amended statement at a concrete 400 response. -/
theorem claim_C6_witness :
    Except.map Outcome.ret
      (Gitlab.creategroup {exampleClient with
        headers := some [("PRIVATE-TOKEN", PyVal.vstr "secret")]} "g1" "g1"
        ⟨400, "json body: Failed to save group", none, some "Failed to save group"⟩)
      = .ok (.httpErrorVal "Failed to save group") :=
  claim_C6_creategroup_error exampleClient [("PRIVATE-TOKEN", PyVal.vstr "secret")]
    "g1" "g1" ⟨400, "json body: Failed to save group", none, some "Failed to save group"⟩
    "Failed to save group" (by decide) rfl

/-- Claim C7, counterexample: `getrepositorybranch` is NOT extensionally
the uniform lookup — on a 404 whose message is not the special branch
string it returns `None` (falling off the inner `if`), where the uniform
function returns the `False` sentinel. -/
theorem claim_C7_counterexample :
    Gitlab.getrepositorybranch exampleClient 1 "devel"
        ⟨404, "json body: 404 Project Not Found", none, some "404 Project Not Found"⟩
      ≠ getrepositorybranchUniform exampleClient 1 "devel"
        ⟨404, "json body: 404 Project Not Found", none, some "404 Project Not Found"⟩ ∧
    Except.map Outcome.ret (Gitlab.getrepositorybranch exampleClient 1 "devel"
        ⟨404, "json body: 404 Project Not Found", none, some "404 Project Not Found"⟩)
      = .ok .pynone ∧
    Except.map Outcome.ret (getrepositorybranchUniform exampleClient 1 "devel"
        ⟨404, "json body: 404 Project Not Found", none, some "404 Project Not Found"⟩)
      = .ok (.bool false) := by
  refine ⟨by decide, rfl, rfl⟩

/-- Claim C7 as amended: `getrepositorybranch` returns the decoded body on
200 and `False` on any non-200, non-404 status; but on a 404 (with a
`message` field) the special-casing is observable: the specific
"404 Branch does not exist Not Found" message yields `False` while every
other 404 message yields `None`, so the two 404 reasons are NOT collapsed
to one sentinel value. -/
theorem claim_C7_branch_lookup (g : Gitlab) (hs : Dict) (pid : Int)
    (branch : String) (resp : Response) (m : String) :
    (resp.status_code = 200 →
      Except.map Outcome.ret
        (Gitlab.getrepositorybranch {g with headers := some hs} pid branch resp)
        = .ok (.json resp.content)) ∧
    (resp.status_code = 404 → resp.message = some m →
      Except.map Outcome.ret
        (Gitlab.getrepositorybranch {g with headers := some hs} pid branch resp)
        = .ok (if m = "404 Branch does not exist Not Found"
               then .bool false else .pynone)) ∧
    (resp.status_code ≠ 200 → resp.status_code ≠ 404 →
      Except.map Outcome.ret
        (Gitlab.getrepositorybranch {g with headers := some hs} pid branch resp)
        = .ok (.bool false)) := by
  refine ⟨fun h200 => ?_, fun h404 hm => ?_, fun hn200 hn404 => ?_⟩
  · simp only [Gitlab.getrepositorybranch, h200]
    rfl
  · by_cases hm2 : m = "404 Branch does not exist Not Found" <;>
      simp [Gitlab.getrepositorybranch, h404, hm, hm2] <;>
      rfl
  · simp [Gitlab.getrepositorybranch, hn200, hn404]
    rfl

/-- Claim C7, witness: the amended statement at a 200 response, the special
404, an ordinary 404 and a 500. -/
theorem claim_C7_witness :
    Except.map Outcome.ret
      (Gitlab.getrepositorybranch {exampleClient with
        headers := some [("PRIVATE-TOKEN", PyVal.vstr "secret")]} 1 "master" respOk)
      = .ok (.json respOk.content) ∧
    Except.map Outcome.ret
      (Gitlab.getrepositorybranch {exampleClient with
        headers := some [("PRIVATE-TOKEN", PyVal.vstr "secret")]} 1 "master"
        ⟨404, "", none, some "404 Branch does not exist Not Found"⟩)
      = .ok (if ("404 Branch does not exist Not Found" : String)
                 = "404 Branch does not exist Not Found"
             then .bool false else .pynone) ∧
    Except.map Outcome.ret
      (Gitlab.getrepositorybranch {exampleClient with
        headers := some [("PRIVATE-TOKEN", PyVal.vstr "secret")]} 1 "master"
        ⟨500, "", none, none⟩)
      = .ok (.bool false) :=
  ⟨(claim_C7_branch_lookup exampleClient [("PRIVATE-TOKEN", PyVal.vstr "secret")]
      1 "master" respOk "x").1 rfl,
   (claim_C7_branch_lookup exampleClient [("PRIVATE-TOKEN", PyVal.vstr "secret")]
      1 "master" ⟨404, "", none, some "404 Branch does not exist Not Found"⟩
      "404 Branch does not exist Not Found").2.1 rfl rfl,
   (claim_C7_branch_lookup exampleClient [("PRIVATE-TOKEN", PyVal.vstr "secret")]
      1 "master" ⟨500, "", none, none⟩ "x").2.2 (by decide) (by decide)⟩

/-- Claim C8: construction raises exactly when the host is empty; for any
non-empty host the stored host is the argument with one trailing slash
stripped and with `https://` prepended exactly when the (stripped) host
starts with neither `http://` nor `https://`, and the API base URL is that
normalized host followed by `/api/v3`. -/
theorem claim_C8_construction (host token : String) (v : Bool) :
    ((∃ e, Gitlab.init host token v = .error e) ↔ host = "") ∧
    (∀ g, Gitlab.init host token v = .ok g →
        g.host = (if hasScheme (stripTrailingSlash host) = true
                  then stripTrailingSlash host
                  else "https://" ++ stripTrailingSlash host) ∧
        g.api_url = g.host ++ "/api/v3") := by
  constructor
  · constructor
    · rintro ⟨e, he⟩
      by_contra hne
      unfold Gitlab.init at he
      rw [if_neg hne] at he
      exact Except.noConfusion he
    · intro h0
      exact ⟨.valueError "host argument may not be empty",
             by unfold Gitlab.init; rw [if_pos h0]⟩
  · intro g hg
    by_cases h0 : host = ""
    · unfold Gitlab.init at hg
      rw [if_pos h0] at hg
      exact Except.noConfusion hg
    · unfold Gitlab.init at hg
      rw [if_neg h0] at hg
      have hg2 := Except.ok.inj hg
      rw [← hg2]
      refine ⟨?_, rfl⟩
      exact if_congr (hasScheme_iff (stripTrailingSlash host)) rfl rfl

/-- Claim C8, witness: an empty host raises, and a host with a trailing
slash and no scheme is normalized as the claim describes. -/
theorem claim_C8_witness :
    (∃ e, Gitlab.init "" "secret" true = .error e) ∧
    (exampleClient.host = (if hasScheme (stripTrailingSlash "gitlab.example.com/") = true
                           then stripTrailingSlash "gitlab.example.com/"
                           else "https://" ++ stripTrailingSlash "gitlab.example.com/") ∧
     exampleClient.api_url = exampleClient.host ++ "/api/v3") :=
  ⟨(claim_C8_construction "" "secret" true).1.mpr rfl,
   (claim_C8_construction "gitlab.example.com/" "secret" true).2 exampleClient (by decide)⟩

/-- On any session whose headers attribute is set, `getusers` issues its
request and passes those session headers to it. -/
theorem getusers_attaches_headers (g : Gitlab) (hs : Dict) (h : g.headers = some hs)
    (search : Option String) (page pp : Int) (resp : Response) :
    ∃ o, Gitlab.getusers g search page pp resp = .ok o ∧
      ∃ r, o.req = some r ∧ r.headers = some hs := by
  by_cases hst : resp.status_code = 200 <;>
    simp only [Gitlab.getusers, h, hst, if_true, if_false, ite_true, ite_false] <;>
    exact ⟨_, rfl, _, rfl, rfl⟩

/-- Claim C9, counterexample: on a client constructed with the default
empty token (so the headers attribute is unset — first conjunct shows the
client is reachable from `Gitlab.__init__`), `createfork` does NOT fail
with an attribute-access error: it never touches the headers attribute
and sends its request unauthenticated, refuting the claim's "every API
operation invoked before a successful login fails with an
attribute-access error instead of sending an unauthenticated request". -/
theorem claim_C9_counterexample :
    Gitlab.init "gitlab.example.com" "" true = .ok exampleClientNoToken ∧
    exampleClientNoToken.headers = none ∧
    Gitlab.createfork exampleClientNoToken 5 respOk =
      .ok ⟨some ⟨.POST, "https://gitlab.example.com/api/v3/projects/fork/5",
                 [], [], none⟩, .bool true⟩ :=
  ⟨by decide, rfl, rfl⟩

/-- Claim C9 as amended: a client constructed with the default empty token
has no headers attribute, so an API operation that passes `self.headers`
to its request — every request-issuing method of the source except
`createfork`, with `getusers` proven as representative — raises
`AttributeError` before any request is issued; `createfork`, which never
reads `self.headers`, raises nothing and sends its request with no
headers at all; and with a token supplied at construction, or after a
successful `login`, the headers attribute exists and `getusers` issues
its request carrying it. -/
theorem claim_C9_headers_attribute (host t : String) (v : Bool)
    (search : Option String) (page pp pid : Int) (resp : Response) :
    (∀ g, Gitlab.init host "" v = .ok g →
        g.headers = none ∧
        Gitlab.getusers g search page pp resp = .error (.attributeError "headers")) ∧
    (∀ g, Gitlab.init host "" v = .ok g →
        ∃ o, Gitlab.createfork g pid resp = .ok o ∧
          ∃ r, o.req = some r ∧ r.headers = none) ∧
    (t ≠ "" → ∀ g, Gitlab.init host t v = .ok g →
        g.headers = some [("PRIVATE-TOKEN", PyVal.vstr t)] ∧
        ∃ o, Gitlab.getusers g search page pp resp = .ok o ∧
          ∃ r, o.req = some r ∧ r.headers = some [("PRIVATE-TOKEN", PyVal.vstr t)]) ∧
    (∀ g2 u p respL out st,
        Gitlab.login g2 none (some p) (some u) respL = .ok (out, st) →
        ∃ hs, st.headers = some hs ∧
          ∃ o, Gitlab.getusers st search page pp resp = .ok o ∧
            ∃ r, o.req = some r ∧ r.headers = some hs) := by
  refine ⟨?_, ?_, ?_, ?_⟩
  · intro g hg
    by_cases h0 : host = ""
    · unfold Gitlab.init at hg
      rw [if_pos h0] at hg
      exact Except.noConfusion hg
    · unfold Gitlab.init at hg
      rw [if_neg h0] at hg
      have hg2 := Except.ok.inj hg
      rw [← hg2]
      exact ⟨rfl, rfl⟩
  · intro g hg
    by_cases hst : resp.status_code = 200 <;>
      simp only [Gitlab.createfork, hst, if_true, if_false, ite_true,
                 ite_false] <;>
      exact ⟨_, rfl, _, rfl, rfl⟩
  · intro ht g hg
    by_cases h0 : host = ""
    · unfold Gitlab.init at hg
      rw [if_pos h0] at hg
      exact Except.noConfusion hg
    · unfold Gitlab.init at hg
      rw [if_neg h0] at hg
      have hg2 := Except.ok.inj hg
      have hh : g.headers = some [("PRIVATE-TOKEN", PyVal.vstr t)] := by
        rw [← hg2]
        show (if t = "" then none
              else some [("PRIVATE-TOKEN", PyVal.vstr t)]) = _
        rw [if_neg ht]
      exact ⟨hh, getusers_attaches_headers g _ hh search page pp resp⟩
  · intro g2 u p respL out st hlog
    simp only [Gitlab.login] at hlog
    by_cases h201 : respL.status_code = 201
    · rw [if_pos h201] at hlog
      cases htk : respL.privateToken with
      | none => rw [htk] at hlog; exact Except.noConfusion hlog
      | some tok =>
          rw [htk] at hlog
          have hps := Except.ok.inj hlog
          injection hps with h1 h2
          have hh : st.headers = some [("PRIVATE-TOKEN", PyVal.vstr tok),
                                       ("connection", PyVal.vstr "close")] := by
            rw [← h2]
          exact ⟨_, hh, getusers_attaches_headers st _ hh search page pp resp⟩
    · rw [if_neg h201] at hlog
      cases hm : respL.message with
      | none => rw [hm] at hlog; exact Except.noConfusion hlog
      | some m => rw [hm] at hlog; exact Except.noConfusion hlog

/-- Claim C9, witness: concrete clients built with an empty and a
non-empty token, and a concrete successful login. -/
theorem claim_C9_witness :
    (∀ g, Gitlab.init "gitlab.example.com" "" true = .ok g →
        g.headers = none ∧
        Gitlab.getusers g none 1 20 respOk = .error (.attributeError "headers")) ∧
    (∀ g, Gitlab.init "gitlab.example.com" "" true = .ok g →
        ∃ o, Gitlab.createfork g 5 respOk = .ok o ∧
          ∃ r, o.req = some r ∧ r.headers = none) ∧
    (∀ g, Gitlab.init "gitlab.example.com" "secret" true = .ok g →
        g.headers = some [("PRIVATE-TOKEN", PyVal.vstr "secret")] ∧
        ∃ o, Gitlab.getusers g none 1 20 respOk = .ok o ∧
          ∃ r, o.req = some r ∧
            r.headers = some [("PRIVATE-TOKEN", PyVal.vstr "secret")]) ∧
    (∀ out st, Gitlab.login exampleClient none (some "pw") (some "root")
          ⟨201, "", some "tok", none⟩ = .ok (out, st) →
        ∃ hs, st.headers = some hs ∧
          ∃ o, Gitlab.getusers st none 1 20 respOk = .ok o ∧
            ∃ r, o.req = some r ∧ r.headers = some hs) :=
  ⟨(claim_C9_headers_attribute "gitlab.example.com" "x" true none 1 20 5 respOk).1,
   (claim_C9_headers_attribute "gitlab.example.com" "x" true none 1 20 5 respOk).2.1,
   (claim_C9_headers_attribute "gitlab.example.com" "secret" true none 1 20 5 respOk).2.2.1
     (by decide),
   fun out st hlog =>
     (claim_C9_headers_attribute "gitlab.example.com" "x" true none 1 20 5 respOk).2.2.2
       exampleClient "root" "pw" ⟨201, "", some "tok", none⟩ out st hlog⟩

/-- Claim C10: the body `createissue` sends is independent of the supplied
`project_id` — its `id` field is the Python builtin `id`, not the project
id (which reaches only the URL). -/
theorem claim_C10_createissue_body (g : Gitlab) (hs : Dict) (pid pid2 : Int)
    (title : String) (kwargs : Dict) (resp : Response) :
    (∀ o o2,
        Gitlab.createissue {g with headers := some hs} pid title kwargs resp = .ok o →
        Gitlab.createissue {g with headers := some hs} pid2 title kwargs resp = .ok o2 →
        o.req.map HttpRequest.body = o2.req.map HttpRequest.body) ∧
    (Dict.get? kwargs "id" = none →
        sentField (Gitlab.createissue {g with headers := some hs} pid title kwargs resp) "id"
          = some PyVal.vbuiltinId ∧
        some (PyVal.vint pid) ≠ some PyVal.vbuiltinId) ∧
    (∀ o, Gitlab.createissue {g with headers := some hs} pid title kwargs resp = .ok o →
        o.req.map HttpRequest.url
          = some (g.projects_url ++ "/" ++ toString pid ++ "/issues")) := by
  refine ⟨?_, fun hid => ⟨?_, ?_⟩, ?_⟩
  · intro o o2 h1 h2
    by_cases hst : resp.status_code = 201 <;> by_cases hkw : kwargs = [] <;>
      simp only [Gitlab.createissue, hst, hkw, if_true, if_false, ite_true,
                 ite_false, Except.ok.injEq] at h1 h2 <;>
      rw [← h1, ← h2] <;> rfl
  · by_cases hst : resp.status_code = 201 <;> by_cases hkw : kwargs = [] <;>
      simp only [Gitlab.createissue, hst, hkw, if_true, if_false, ite_true,
                 ite_false] <;>
      first
      | rfl
      | (show Dict.get? (Dict.update
            [("id", PyVal.vbuiltinId), ("title", PyVal.vstr title)] kwargs) "id"
            = some PyVal.vbuiltinId
         rw [dict_get?_update_of_absent kwargs _ "id" hid]
         rfl)
  · simp
  · intro o ho
    by_cases hst : resp.status_code = 201 <;> by_cases hkw : kwargs = [] <;>
      simp only [Gitlab.createissue, hst, hkw, if_true, if_false, ite_true,
                 ite_false, Except.ok.injEq] at ho <;>
      rw [← ho] <;> rfl

/-- Claim C10, witness: two `createissue` calls differing only in the
project id (1 vs 2) produce the same body, whose `id` field is the
builtin marker, while the ids reach the URLs. -/
theorem claim_C10_witness :
    (Outcome.req ⟨some ⟨.POST, "https://gitlab.example.com/api/v3/projects/1/issues",
        [], [("id", PyVal.vbuiltinId), ("title", PyVal.vstr "t"), ("labels", PyVal.vstr "bug")],
        some [("PRIVATE-TOKEN", PyVal.vstr "secret")]⟩, .bool false⟩).map HttpRequest.body
      = (Outcome.req ⟨some ⟨.POST, "https://gitlab.example.com/api/v3/projects/2/issues",
        [], [("id", PyVal.vbuiltinId), ("title", PyVal.vstr "t"), ("labels", PyVal.vstr "bug")],
        some [("PRIVATE-TOKEN", PyVal.vstr "secret")]⟩, .bool false⟩).map HttpRequest.body ∧
    (sentField (Gitlab.createissue {exampleClient with
        headers := some [("PRIVATE-TOKEN", PyVal.vstr "secret")]} 1 "t"
        [("labels", PyVal.vstr "bug")] respOk) "id" = some PyVal.vbuiltinId ∧
     some (PyVal.vint 1) ≠ some PyVal.vbuiltinId) ∧
    (Outcome.req ⟨some ⟨.POST, "https://gitlab.example.com/api/v3/projects/1/issues",
        [], [("id", PyVal.vbuiltinId), ("title", PyVal.vstr "t"), ("labels", PyVal.vstr "bug")],
        some [("PRIVATE-TOKEN", PyVal.vstr "secret")]⟩, .bool false⟩).map HttpRequest.url
      = some (exampleClient.projects_url ++ "/" ++ toString (1 : Int) ++ "/issues") :=
  ⟨(claim_C10_createissue_body exampleClient [("PRIVATE-TOKEN", PyVal.vstr "secret")]
      1 2 "t" [("labels", PyVal.vstr "bug")] respOk).1
      ⟨some ⟨.POST, "https://gitlab.example.com/api/v3/projects/1/issues",
        [], [("id", PyVal.vbuiltinId), ("title", PyVal.vstr "t"), ("labels", PyVal.vstr "bug")],
        some [("PRIVATE-TOKEN", PyVal.vstr "secret")]⟩, .bool false⟩
      ⟨some ⟨.POST, "https://gitlab.example.com/api/v3/projects/2/issues",
        [], [("id", PyVal.vbuiltinId), ("title", PyVal.vstr "t"), ("labels", PyVal.vstr "bug")],
        some [("PRIVATE-TOKEN", PyVal.vstr "secret")]⟩, .bool false⟩
      (by decide) (by decide),
   (claim_C10_createissue_body exampleClient [("PRIVATE-TOKEN", PyVal.vstr "secret")]
      1 2 "t" [("labels", PyVal.vstr "bug")] respOk).2.1 (by decide),
   (claim_C10_createissue_body exampleClient [("PRIVATE-TOKEN", PyVal.vstr "secret")]
      1 2 "t" [("labels", PyVal.vstr "bug")] respOk).2.2
      ⟨some ⟨.POST, "https://gitlab.example.com/api/v3/projects/1/issues",
        [], [("id", PyVal.vbuiltinId), ("title", PyVal.vstr "t"), ("labels", PyVal.vstr "bug")],
        some [("PRIVATE-TOKEN", PyVal.vstr "secret")]⟩, .bool false⟩
      (by decide)⟩
